import Mathlib

/-!
Shallow embedding of the tarmac-project/sdk guest-side capability clients
(packages `kv`, `sql`, `httpclient` and the shared `sdk` error sentinels),
together with theorems settling the frozen claims about the host-call
protocol: validation, status dispatch and multi-cause error composition.

Modelling conventions:
* A Go `error` value is modelled as `Option (List Cause)`: `none` is the nil
  error; `errors.Join(e1, e2, ...)` is list concatenation (nil arguments are
  dropped by `Join` and are simply absent from the list); `errors.Is(err, s)`
  is list membership of the sentinel `s`.
* Host payload bytes are modelled per response type by `Payload ρ`:
  `.empty` is a zero-length payload (protobuf decodes it to the zero-value
  message), `.wire m` is a non-empty payload that decodes to `m`, and
  `.garbage e` is a payload whose decode fails with error value `e`.
* `MarshalVT` on the request messages used here cannot fail, so request
  encoding is total in the model and the marshal-error branches are
  unreachable.
* Each operation returns a `Res α`: the typed result, the Go error, and the
  number of host-call invocations performed (used to state "the host call is
  never invoked").
-/

/-- Raw bytes are abstracted as a list of byte values. -/
abbrev Bytes := List Nat

/-- `sdk.Status` protobuf message: `{code: int32, status: string}`. -/
structure Status where
  code : Int
  status : String
deriving Repr, DecidableEq

/-- An opaque transport-layer error value returned by the waPC host call. -/
structure TransportErr where
  id : Nat
deriving Repr, DecidableEq

/-- An opaque protobuf decode (UnmarshalVT) error value. -/
structure DecodeErr where
  id : Nat
deriving Repr, DecidableEq

/-- An opaque error produced by reading an HTTP request body stream. -/
structure ReadErr where
  id : Nat
deriving Repr, DecidableEq

/-- Every distinct Go error value appearing in the modelled packages:
the shared `sdk` sentinels, per-package sentinels, and dynamic error values
(transport errors, decode errors, read errors, `errors.New`/`fmt.Errorf`
detail messages). -/
inductive Cause where
  | errHostCall
  | errHostResponseInvalid
  | errHostError
  | errInvalidKey
  | errInvalidValue
  | errKeyNotFound
  | errInvalidQuery
  | errSQLMarshalRequest
  | errSQLUnmarshalResponse
  | errHTTPInvalidURL
  | errHTTPMarshalRequest
  | errHTTPReadBody
  | errHTTPUnmarshalResponse
  | errHTTPInvalidMethod
  | errHTTPNilRequest
  | transport (e : TransportErr)
  | unmarshal (e : DecodeErr)
  | readFail (e : ReadErr)
  | msg (s : String)
deriving Repr, DecidableEq

/-- A composed Go error: an ordered list of causes (`errors.Join`). -/
abbrev GoError := List Cause

/-- A host-returned payload, classified by what decoding it would produce. -/
inductive Payload (ρ : Type) where
  | empty
  | wire (m : ρ)
  | garbage (e : DecodeErr)
deriving Repr, DecidableEq

/-- `len(respBytes) == 0` on a payload. -/
def Payload.isEmptyBytes {ρ : Type} : Payload ρ → Bool
  | .empty => true
  | _ => false

/-- `UnmarshalVT` on a payload: an empty payload decodes to the zero-value
message, a wire payload decodes to its message, garbage fails. -/
def decodeP {ρ : Type} (zero : ρ) : Payload ρ → Except DecodeErr ρ
  | .empty => .ok zero
  | .wire m => .ok m
  | .garbage e => .error e

/-- Result of one capability operation: typed value, Go error, and the
number of host-call invocations made. -/
structure Res (α : Type) where
  val : α
  err : Option GoError
  calls : Nat
deriving Repr, DecidableEq

/-- `status != nil && status.GetCode() == c` from the Go sources. -/
def statusIs (st : Option Status) (c : Int) : Bool :=
  match st with
  | some s => s.code = c
  | none => false

namespace KV

/-- `kvstore.KVStoreGet` request message. -/
structure KVStoreGet where
  key : String
deriving Repr, DecidableEq

/-- `kvstore.KVStoreGetResponse` message. -/
structure KVStoreGetResponse where
  status : Option Status := none
  data : Bytes := []
deriving Repr, DecidableEq

/-- `kvstore.KVStoreSet` request message. -/
structure KVStoreSet where
  key : String
  data : Bytes
deriving Repr, DecidableEq

/-- `kvstore.KVStoreSetResponse` message. -/
structure KVStoreSetResponse where
  status : Option Status := none
deriving Repr, DecidableEq

/-- `kvstore.KVStoreDelete` request message. -/
structure KVStoreDelete where
  key : String
deriving Repr, DecidableEq

/-- `kvstore.KVStoreDeleteResponse` message. -/
structure KVStoreDeleteResponse where
  status : Option Status := none
deriving Repr, DecidableEq

/-- `kvstore.KVStoreKeys` request message. -/
structure KVStoreKeys where
  returnProto : Bool
deriving Repr, DecidableEq

/-- `kvstore.KVStoreKeysResponse` message. -/
structure KVStoreKeysResponse where
  status : Option Status := none
  keys : List String := []
deriving Repr, DecidableEq

/-- A waPC host-call function specialised to one operation: from the encoded
request to the response payload and optional transport error. -/
abbrev HostFn (σ ρ : Type) := σ → Payload ρ × Option TransportErr

/-- `kv.client.Get` from src/kv/kv.go. -/
def Get (host : HostFn KVStoreGet KVStoreGetResponse) (ns key : String) :
    Res Bytes :=
  if key = "" then ⟨[], some [.errInvalidKey], 0⟩
  else
    let _ := ns
    let (respBytes, callErr) := host ⟨key⟩
    if callErr.isSome ∧ respBytes.isEmptyBytes then
      ⟨[], some ([.errHostCall] ++ (callErr.map (fun e => [.transport e])).getD []), 1⟩
    else
      match decodeP {} respBytes with
      | .error u =>
        match callErr with
        | some ce => ⟨[], some [.errHostCall, .transport ce, .errHostResponseInvalid, .unmarshal u], 1⟩
        | none => ⟨[], some [.errHostResponseInvalid, .unmarshal u], 1⟩
      | .ok resp =>
        if statusIs resp.status 200 then ⟨resp.data, none, 1⟩
        else if statusIs resp.status 404 then ⟨[], some [.errKeyNotFound], 1⟩
        else if statusIs resp.status 500 then
          match callErr with
          | some ce => ⟨[], some [.errHostError, .transport ce], 1⟩
          | none => ⟨[], some [.errHostError], 1⟩
        else ⟨[], some [.errHostResponseInvalid], 1⟩

/-- `kv.client.Set` from src/kv/kv.go. -/
def Set (host : HostFn KVStoreSet KVStoreSetResponse) (ns key : String)
    (value : Bytes) : Res Unit :=
  if key = "" then ⟨(), some [.errInvalidKey], 0⟩
  else if value.length = 0 then ⟨(), some [.errInvalidValue], 0⟩
  else
    let _ := ns
    let (respBytes, callErr) := host ⟨key, value⟩
    if callErr.isSome ∧ respBytes.isEmptyBytes then
      ⟨(), some ([.errHostCall] ++ (callErr.map (fun e => [.transport e])).getD []), 1⟩
    else
      match decodeP {} respBytes with
      | .error u =>
        match callErr with
        | some ce => ⟨(), some [.errHostCall, .transport ce, .errHostResponseInvalid, .unmarshal u], 1⟩
        | none => ⟨(), some [.errHostResponseInvalid, .unmarshal u], 1⟩
      | .ok resp =>
        if statusIs resp.status 200 then ⟨(), none, 1⟩
        else if statusIs resp.status 500 then
          match callErr with
          | some ce => ⟨(), some [.errHostError, .transport ce], 1⟩
          | none => ⟨(), some [.errHostError], 1⟩
        else ⟨(), some [.errHostResponseInvalid], 1⟩

/-- `kv.client.Delete` from src/kv/kv.go. -/
def Delete (host : HostFn KVStoreDelete KVStoreDeleteResponse) (ns key : String) :
    Res Unit :=
  if key = "" then ⟨(), some [.errInvalidKey], 0⟩
  else
    let _ := ns
    let (respBytes, callErr) := host ⟨key⟩
    if callErr.isSome ∧ respBytes.isEmptyBytes then
      ⟨(), some ([.errHostCall] ++ (callErr.map (fun e => [.transport e])).getD []), 1⟩
    else
      match decodeP {} respBytes with
      | .error u =>
        match callErr with
        | some ce => ⟨(), some [.errHostCall, .transport ce, .errHostResponseInvalid, .unmarshal u], 1⟩
        | none => ⟨(), some [.errHostResponseInvalid, .unmarshal u], 1⟩
      | .ok resp =>
        if statusIs resp.status 200 ∨ statusIs resp.status 404 then ⟨(), none, 1⟩
        else if statusIs resp.status 500 then
          match callErr with
          | some ce => ⟨(), some [.errHostError, .transport ce], 1⟩
          | none => ⟨(), some [.errHostError], 1⟩
        else ⟨(), some [.errHostResponseInvalid], 1⟩

/-- `kv.client.Keys` from src/kv/kv.go. -/
def Keys (host : HostFn KVStoreKeys KVStoreKeysResponse) (ns : String) :
    Res (List String) :=
  let _ := ns
  let (respBytes, callErr) := host ⟨true⟩
  if callErr.isSome ∧ respBytes.isEmptyBytes then
    ⟨[], some ([.errHostCall] ++ (callErr.map (fun e => [.transport e])).getD []), 1⟩
  else
    match decodeP {} respBytes with
    | .error u =>
      match callErr with
      | some ce => ⟨[], some [.errHostCall, .transport ce, .errHostResponseInvalid, .unmarshal u], 1⟩
      | none => ⟨[], some [.errHostResponseInvalid, .unmarshal u], 1⟩
    | .ok resp =>
      if statusIs resp.status 200 then ⟨resp.keys, none, 1⟩
      else if statusIs resp.status 500 then
        match callErr with
        | some ce => ⟨[], some [.errHostError, .transport ce], 1⟩
        | none => ⟨[], some [.errHostError], 1⟩
      else ⟨[], some [.errHostResponseInvalid], 1⟩

end KV

namespace SQL

/-- `sql.SQLExec` request message. -/
structure SQLExec where
  query : Bytes
deriving Repr, DecidableEq

/-- `sql.SQLExecResponse` message. -/
structure SQLExecResponse where
  status : Option Status := none
  lastInsertId : Int := 0
  rowsAffected : Int := 0
deriving Repr, DecidableEq

/-- `sql.SQLQuery` request message. -/
structure SQLQuery where
  query : Bytes
deriving Repr, DecidableEq

/-- `sql.SQLQueryResponse` message. -/
structure SQLQueryResponse where
  status : Option Status := none
  columns : List String := []
  data : Bytes := []
deriving Repr, DecidableEq

/-- `sql.ExecResult` mirrors the SQLExecResponse payload fields. -/
structure ExecResult where
  lastInsertID : Int := 0
  rowsAffected : Int := 0
deriving Repr, DecidableEq

/-- `sql.QueryResult` mirrors the SQLQueryResponse payload fields. -/
structure QueryResult where
  columns : List String := []
  data : Bytes := []
deriving Repr, DecidableEq

/-- `string → []byte` conversion used for the query text. -/
def strBytes (s : String) : Bytes := s.toUTF8.toList.map (fun b => b.toNat)

/-- `sql.validateStatus` from src/sql/sql.go: classifies the decoded
envelope's status given the transport error of the same call. -/
def validateStatus (status : Option Status) (callErr : Option TransportErr) :
    Option GoError :=
  match status with
  | none =>
    match callErr with
    | some ce => some [.errHostCall, .transport ce, .errHostResponseInvalid]
    | none => some [.errHostResponseInvalid]
  | some s =>
    if s.code = 200 ∨ s.code = 206 then none
    else if s.code = 400 ∨ s.code = 404 ∨ s.code = 500 then
      let detail :=
        if s.status ≠ "" then
          "host status " ++ toString s.code ++ ": " ++ s.status
        else
          "host status " ++ toString s.code
      match callErr with
      | some ce => some [.errHostCall, .transport ce, .errHostError, .msg detail]
      | none => some [.errHostError, .msg detail]
    else
      let statusErr := "unexpected host status code " ++ toString s.code
      match callErr with
      | some ce => some [.errHostCall, .transport ce, .errHostResponseInvalid, .msg statusErr]
      | none => some [.errHostResponseInvalid, .msg statusErr]

/-- `sql.DBClient.Exec` from src/sql/sql.go. -/
def Exec (host : KV.HostFn SQLExec SQLExecResponse) (ns query : String) :
    Res ExecResult :=
  if query = "" then ⟨{}, some [.errInvalidQuery], 0⟩
  else
    let _ := ns
    let (respBytes, callErr) := host ⟨strBytes query⟩
    if callErr.isSome ∧ respBytes.isEmptyBytes then
      ⟨{}, some ([.errHostCall] ++ (callErr.map (fun e => [.transport e])).getD []), 1⟩
    else
      match decodeP {} respBytes with
      | .error u =>
        match callErr with
        | some ce =>
          ⟨{}, some [.errHostCall, .transport ce, .errHostResponseInvalid,
                     .errSQLUnmarshalResponse, .unmarshal u], 1⟩
        | none =>
          ⟨{}, some [.errHostResponseInvalid, .errSQLUnmarshalResponse, .unmarshal u], 1⟩
      | .ok resp =>
        match validateStatus resp.status callErr with
        | some statusErr => ⟨{}, some statusErr, 1⟩
        | none =>
          ⟨{ lastInsertID := resp.lastInsertId, rowsAffected := resp.rowsAffected }, none, 1⟩

/-- `sql.DBClient.Query` from src/sql/sql.go. -/
def Query (host : KV.HostFn SQLQuery SQLQueryResponse) (ns query : String) :
    Res QueryResult :=
  if query = "" then ⟨{}, some [.errInvalidQuery], 0⟩
  else
    let _ := ns
    let (respBytes, callErr) := host ⟨strBytes query⟩
    if callErr.isSome ∧ respBytes.isEmptyBytes then
      ⟨{}, some ([.errHostCall] ++ (callErr.map (fun e => [.transport e])).getD []), 1⟩
    else
      match decodeP {} respBytes with
      | .error u =>
        match callErr with
        | some ce =>
          ⟨{}, some [.errHostCall, .transport ce, .errHostResponseInvalid,
                     .errSQLUnmarshalResponse, .unmarshal u], 1⟩
        | none =>
          ⟨{}, some [.errHostResponseInvalid, .errSQLUnmarshalResponse, .unmarshal u], 1⟩
      | .ok resp =>
        match validateStatus resp.status callErr with
        | some statusErr => ⟨{}, some statusErr, 1⟩
        | none =>
          ⟨{ columns := resp.columns, data := resp.data }, none, 1⟩

end SQL

namespace HTTPC

/-- `proto.HTTPClient` request message (method, URL, TLS flag, body, headers). -/
structure HTTPClientReq where
  method : String
  url : String
  insecure : Bool := false
  body : Bytes := []
  headers : List (String × List String) := []
deriving Repr, DecidableEq

/-- `proto.HTTPClientResponse` message: host status envelope plus the
simulated HTTP outcome (`code`, headers, body). -/
structure HTTPClientResponse where
  status : Option Status := none
  code : Int := 0
  headers : List (String × List String) := []
  body : Bytes := []
deriving Repr, DecidableEq

/-- `httpclient.Response`: HTTP status text, numeric code, headers, body. -/
structure Response where
  status : String := ""
  statusCode : Int := 0
  header : List (String × List String) := []
  body : Bytes := []
deriving Repr, DecidableEq

/-- The standard `net/http.StatusText` code-to-text mapping (the subset of
entries relevant here; unknown codes map to the empty string, as in Go). -/
def statusText (code : Int) : String :=
  if code = 200 then "OK"
  else if code = 201 then "Created"
  else if code = 204 then "No Content"
  else if code = 206 then "Partial Content"
  else if code = 301 then "Moved Permanently"
  else if code = 302 then "Found"
  else if code = 400 then "Bad Request"
  else if code = 401 then "Unauthorized"
  else if code = 403 then "Forbidden"
  else if code = 404 then "Not Found"
  else if code = 500 then "Internal Server Error"
  else if code = 502 then "Bad Gateway"
  else if code = 503 then "Service Unavailable"
  else ""

/-- A parsed `net/url.URL`: its host component and its `String()` rendering. -/
structure URL where
  host : String
  render : String
deriving Repr, DecidableEq

/-- The outcome of `net/url.Parse` on a string, supplied as an oracle
(`none` models a parse error). -/
abbrev ParseFn := String → Option URL

/-- The outcome of `io.ReadAll` on a request body stream: `none` models a
nil body, `some (.error e)` a read failure, `some (.ok bs)` the bytes read. -/
abbrev Body := Option (Except ReadErr Bytes)

/-- `httpclient.HTTPClient.doHTTPCall` from src/httpclient/http.go. -/
def doHTTPCall (host : KV.HostFn HTTPClientReq HTTPClientResponse)
    (ns : String) (req : HTTPClientReq) : Res Response :=
  let _ := ns
  let (respBytes, err) := host req
  match err with
  | some e => ⟨{}, some [.errHostCall, .transport e], 1⟩
  | none =>
    match decodeP {} respBytes with
    | .error u => ⟨{}, some [.errHTTPUnmarshalResponse, .unmarshal u], 1⟩
    | .ok r =>
      match r.status with
      | none => ⟨{}, some [.errHostResponseInvalid], 1⟩
      | some s =>
        if s.code = 200 ∨ s.code = 206 then
          ⟨{ status := statusText r.code, statusCode := r.code,
             header := r.headers, body := r.body }, none, 1⟩
        else if s.code = 400 ∨ s.code = 404 ∨ s.code = 500 then
          let detail :=
            if s.status ≠ "" then
              "host status " ++ toString s.code ++ ": " ++ s.status
            else
              "host status " ++ toString s.code
          ⟨{}, some [.errHostError, .msg detail], 1⟩
        else
          ⟨{}, some [.errHostResponseInvalid,
                     .msg ("unexpected host status code " ++ toString s.code)], 1⟩

/-- `httpclient.HTTPClient.Get` from src/httpclient/http.go. -/
def Get (parse : ParseFn) (host : KV.HostFn HTTPClientReq HTTPClientResponse)
    (ns : String) (insecure : Bool) (urlStr : String) : Res Response :=
  match parse urlStr with
  | none => ⟨{}, some [.errHTTPInvalidURL], 0⟩
  | some u =>
    if u.host = "" then ⟨{}, some [.errHTTPInvalidURL], 0⟩
    else doHTTPCall host ns { method := "GET", url := urlStr, insecure := insecure }

/-- `httpclient.HTTPClient.Post` from src/httpclient/http.go. -/
def Post (parse : ParseFn) (host : KV.HostFn HTTPClientReq HTTPClientResponse)
    (ns : String) (insecure : Bool) (urlStr contentType : String)
    (body : Body) : Res Response :=
  match parse urlStr with
  | none => ⟨{}, some [.errHTTPInvalidURL], 0⟩
  | some u =>
    if u.host = "" then ⟨{}, some [.errHTTPInvalidURL], 0⟩
    else
      match body with
      | some (.error re) => ⟨{}, some [.errHTTPReadBody, .readFail re], 0⟩
      | _ =>
        let bodyBytes := match body with | some (.ok bs) => bs | _ => []
        let headers :=
          if contentType ≠ "" then [("Content-Type", [contentType])] else []
        doHTTPCall host ns
          { method := "POST", url := urlStr, insecure := insecure,
            body := bodyBytes, headers := headers }

/-- `httpclient.HTTPClient.Put` from src/httpclient/http.go. -/
def Put (parse : ParseFn) (host : KV.HostFn HTTPClientReq HTTPClientResponse)
    (ns : String) (insecure : Bool) (urlStr contentType : String)
    (body : Body) : Res Response :=
  match parse urlStr with
  | none => ⟨{}, some [.errHTTPInvalidURL], 0⟩
  | some u =>
    if u.host = "" then ⟨{}, some [.errHTTPInvalidURL], 0⟩
    else
      match body with
      | some (.error re) => ⟨{}, some [.errHTTPReadBody, .readFail re], 0⟩
      | _ =>
        let bodyBytes := match body with | some (.ok bs) => bs | _ => []
        let headers :=
          if contentType ≠ "" then [("Content-Type", [contentType])] else []
        doHTTPCall host ns
          { method := "PUT", url := urlStr, insecure := insecure,
            body := bodyBytes, headers := headers }

/-- `httpclient.HTTPClient.Delete` from src/httpclient/http.go. -/
def Delete (parse : ParseFn) (host : KV.HostFn HTTPClientReq HTTPClientResponse)
    (ns : String) (insecure : Bool) (urlStr : String) : Res Response :=
  match parse urlStr with
  | none => ⟨{}, some [.errHTTPInvalidURL], 0⟩
  | some u =>
    if u.host = "" then ⟨{}, some [.errHTTPInvalidURL], 0⟩
    else doHTTPCall host ns { method := "DELETE", url := urlStr, insecure := insecure }

/-- `httpclient.Request`: method, parsed URL, headers, body stream. -/
structure Request where
  method : String
  url : Option URL
  header : List (String × List String) := []
  body : Body := none
deriving Repr

/-- `httpclient.HTTPClient.Do` from src/httpclient/http.go. -/
def Do (host : KV.HostFn HTTPClientReq HTTPClientResponse)
    (ns : String) (insecure : Bool) (req : Option Request) : Res Response :=
  match req with
  | none => ⟨{}, some [.errHTTPNilRequest], 0⟩
  | some r =>
    match r.url with
    | none => ⟨{}, some [.errHTTPInvalidURL], 0⟩
    | some u =>
      if u.host = "" then ⟨{}, some [.errHTTPInvalidURL], 0⟩
      else
        match r.body with
        | some (.error re) => ⟨{}, some [.errHTTPReadBody, .readFail re], 0⟩
        | _ =>
          let bodyBytes := match r.body with | some (.ok bs) => bs | _ => []
          doHTTPCall host ns
            { method := r.method, url := u.render, insecure := insecure,
              body := bodyBytes, headers := r.header }

/-- `httpclient.isValidMethod`: the fixed HTTP method allow-list. -/
def isValidMethod (method : String) : Bool :=
  method = "GET" ∨ method = "HEAD" ∨ method = "POST" ∨ method = "PUT" ∨
    method = "PATCH" ∨ method = "DELETE" ∨ method = "CONNECT" ∨
    method = "OPTIONS" ∨ method = "TRACE"

/-- `httpclient.NewRequest` from src/httpclient/http.go. -/
def NewRequest (parse : ParseFn) (method urlString : String) (body : Body) :
    Except GoError Request :=
  if ¬ isValidMethod method then .error [.errHTTPInvalidMethod]
  else
    match parse urlString with
    | none => .error [.errHTTPInvalidURL]
    | some u =>
      if u.host = "" then .error [.errHTTPInvalidURL]
      else .ok { method := method, url := some u, body := body }

end HTTPC

/-- The composed-error shape claimed for simultaneous transport and decode
failures: the error is non-nil, the transport-layer sentinel `sdk.ErrHostCall`
appears first among the composed causes, and both the transport cause and the
decode cause remain independently identifiable (`errors.Is`). -/
def transportFirstWithDecode (ce : TransportErr) (u : DecodeErr)
    (e : Option GoError) : Prop :=
  ∃ l, e = some l ∧ l.head? = some Cause.errHostCall ∧
    Cause.transport ce ∈ l ∧ Cause.unmarshal u ∈ l

/-- Causes that are fixed sentinel error values; dynamic causes (transport,
decode, read, message text) are excluded. Classification claims are stated
over the sentinel part of a composed error. -/
def Cause.isSentinel : Cause → Bool
  | .transport _ => false
  | .unmarshal _ => false
  | .readFail _ => false
  | .msg _ => false
  | _ => true

/-- The sentinel part of a Go error: which sentinel causes it carries. -/
def sentinelShape (e : Option GoError) : Option GoError :=
  e.map (List.filter Cause.isSentinel)

/-- The error of a SQL Exec on a well-formed envelope is exactly the
`validateStatus` classification of its status. -/
theorem sqlExec_wire_err (c : Int) (m ns query : String) (hq : query ≠ "") :
    (SQL.Exec (fun _ => (.wire { status := some ⟨c, m⟩ }, none)) ns query).err
      = SQL.validateStatus (some ⟨c, m⟩) none := by
  rcases h : SQL.validateStatus (some ⟨c, m⟩) none with _ | l <;>
    simp [SQL.Exec, decodeP, Payload.isEmptyBytes, hq, h]

/-- `validateStatus` keeps the same sentinel causes whatever the message text. -/
theorem sentinelShape_validateStatus (c : Int) (m m2 : String) :
    sentinelShape (SQL.validateStatus (some ⟨c, m⟩) none)
      = sentinelShape (SQL.validateStatus (some ⟨c, m2⟩) none) := by
  by_cases h1 : c = 200 ∨ c = 206
  · simp [SQL.validateStatus, h1]
  · by_cases h2 : c = 400 ∨ c = 404 ∨ c = 500
    · simp [SQL.validateStatus, h1, h2, sentinelShape, Cause.isSentinel]
    · simp [SQL.validateStatus, h1, h2, sentinelShape, Cause.isSentinel]

/-- HTTP dispatch keeps the same sentinel causes whatever the message text. -/
theorem sentinelShape_httpDispatch (c : Int) (m m2 ns : String)
    (req : HTTPC.HTTPClientReq) :
    sentinelShape (HTTPC.doHTTPCall (fun _ => (.wire { status := some ⟨c, m⟩ }, none)) ns req).err
      = sentinelShape (HTTPC.doHTTPCall (fun _ => (.wire { status := some ⟨c, m2⟩ }, none)) ns req).err := by
  by_cases h1 : c = 200 ∨ c = 206
  · simp [HTTPC.doHTTPCall, decodeP, h1]
  · by_cases h2 : c = 400 ∨ c = 404 ∨ c = 500
    · simp [HTTPC.doHTTPCall, decodeP, h1, h2, sentinelShape, Cause.isSentinel]
    · simp [HTTPC.doHTTPCall, decodeP, h1, h2, sentinelShape, Cause.isSentinel]

/-- C1: the spec requires that a SQL call whose envelope carries status 206
return the populated typed result together with a non-nil Partial-flagged
error; the code instead returns the populated result with a nil error
(`validateStatus` maps 206 to success), contradicting the package
documentation and tests. -/
theorem C1_sql_exec_status206_returns_nil_error :
    SQL.Exec
      (fun _ => (.wire { status := some ⟨206, "rows affected unavailable"⟩,
                         lastInsertId := 42, rowsAffected := 3 }, none))
      "tarmac" "UPDATE t SET x=1"
      = { val := { lastInsertID := 42, rowsAffected := 3 }, err := none, calls := 1 } := by
  rfl

/-- C2 counterexample: a KV Get whose host call reports a transport error but
also returns a payload decoding to status 200 returns the decoded data with a
nil error, refuting the claim that every KV operation treats the transport
error as fatal. -/
theorem C2_counterexample_kv_get_honors_success_over_transport_error :
    KV.Get (fun _ => (.wire { status := some ⟨200, "OK"⟩, data := [1, 2] }, some ⟨7⟩)) "ns" "k"
      = { val := [1, 2], err := none, calls := 1 } := by
  rfl

/-- C2 (amended): when the host-call function returns a non-nil transport
error together with a payload decoding to status 200, the SQL and KV clients
honor the success and return the decoded result with a nil error, whereas the
HTTP client treats any non-nil transport error as fatal regardless of the
payload. -/
theorem C2_transport_error_with_success_payload
    (ns key query m : String) (ce : TransportErr) (d : Bytes) (a b : Int)
    (hkey : key ≠ "") (hq : query ≠ "") :
    KV.Get (fun _ => (.wire { status := some ⟨200, m⟩, data := d }, some ce)) ns key
      = { val := d, err := none, calls := 1 } ∧
    SQL.Exec
      (fun _ => (.wire { status := some ⟨200, m⟩, lastInsertId := a, rowsAffected := b },
                 some ce)) ns query
      = { val := { lastInsertID := a, rowsAffected := b }, err := none, calls := 1 } ∧
    ∀ (p : Payload HTTPC.HTTPClientResponse) (req : HTTPC.HTTPClientReq),
      HTTPC.doHTTPCall (fun _ => (p, some ce)) ns req
        = { val := {}, err := some [.errHostCall, .transport ce], calls := 1 } := by
  refine ⟨?_, ?_, ?_⟩
  · simp [KV.Get, statusIs, decodeP, Payload.isEmptyBytes, hkey]
  · simp [SQL.Exec, SQL.validateStatus, decodeP, Payload.isEmptyBytes, hq]
  · intro p req
    rfl

/-- C2 witness at concrete inputs. -/
theorem C2_transport_error_with_success_payload_witness :
    ("k" : String) ≠ "" ∧ ("SELECT 1" : String) ≠ "" ∧
    (KV.Get (fun _ => (.wire { status := some ⟨200, "OK"⟩, data := [9] }, some ⟨1⟩)) "ns" "k"
      = { val := [9], err := none, calls := 1 } ∧
    SQL.Exec
      (fun _ => (.wire { status := some ⟨200, "OK"⟩, lastInsertId := 5, rowsAffected := 2 },
                 some ⟨1⟩)) "ns" "SELECT 1"
      = { val := { lastInsertID := 5, rowsAffected := 2 }, err := none, calls := 1 } ∧
    ∀ (p : Payload HTTPC.HTTPClientResponse) (req : HTTPC.HTTPClientReq),
      HTTPC.doHTTPCall (fun _ => (p, some ⟨1⟩)) "ns" req
        = { val := {}, err := some [.errHostCall, .transport ⟨1⟩], calls := 1 }) :=
  ⟨by decide, by decide,
    C2_transport_error_with_success_payload "ns" "k" "SELECT 1" "OK" ⟨1⟩ [9] 5 2
      (by decide) (by decide)⟩

/-- C3: the spec requires whitespace-only inputs (KV key of spaces, blank or
whitespace-only SQL query) to be rejected with the validation error before any
host call; the code only rejects the empty string, so whitespace-only inputs
reach the host (one call is made) and ErrInvalidQuery/ErrInvalidKey is never
returned, contradicting the SQL package's own test expectations. -/
theorem C3_whitespace_only_inputs_reach_host :
    SQL.Exec (fun _ => (.empty, none)) "tarmac" " \n\t "
      = { val := {}, err := some [.errHostResponseInvalid], calls := 1 } ∧
    KV.Get (fun _ => (.empty, none)) "default" " "
      = { val := [], err := some [.errHostResponseInvalid], calls := 1 } := by
  exact ⟨rfl, rfl⟩

/-- C4 counterexample: a KV Set whose envelope carries status 400 with a
host-supplied message returns an error that satisfies the Response-Invalid
identity check, not the Status-Error identity check, and carries no message
text — refuting the claim for KV operations. -/
theorem C4_counterexample_kv_set_status400 :
    KV.Set (fun _ => (.wire { status := some ⟨400, "Invalid"⟩ }, none)) "default" "key1" [1]
      = { val := (), err := some [.errHostResponseInvalid], calls := 1 } ∧
    Cause.errHostError ∉ [Cause.errHostResponseInvalid] := by
  exact ⟨rfl, by decide⟩

/-- C4 (amended): SQL and HTTP map envelope status 400/404/500 to a
Status-Error (`sdk.ErrHostError`) carrying the host message text when present,
and any unrecognized status to Response-Invalid; KV maps only status 500 to
`sdk.ErrHostError` — without the message text — and treats 400 (and 404 on
Set, outside the documented Get/Delete special cases) as Response-Invalid.
In all cases the sentinel classification depends only on the numeric code,
never on the message text. -/
theorem C4_status_error_classification
    (c : Int) (m m2 ns key query : String) (req : HTTPC.HTTPClientReq)
    (hkey : key ≠ "") (hq : query ≠ "") :
    ((c = 400 ∨ c = 404 ∨ c = 500) →
      (SQL.Exec (fun _ => (.wire { status := some ⟨c, m⟩ }, none)) ns query).err
        = some [.errHostError,
            .msg (if m ≠ "" then "host status " ++ toString c ++ ": " ++ m
                  else "host status " ++ toString c)] ∧
      (HTTPC.doHTTPCall (fun _ => (.wire { status := some ⟨c, m⟩ }, none)) ns req).err
        = some [.errHostError,
            .msg (if m ≠ "" then "host status " ++ toString c ++ ": " ++ m
                  else "host status " ++ toString c)]) ∧
    (¬(c = 200 ∨ c = 206 ∨ c = 400 ∨ c = 404 ∨ c = 500) →
      (SQL.Exec (fun _ => (.wire { status := some ⟨c, m⟩ }, none)) ns query).err
        = some [.errHostResponseInvalid, .msg ("unexpected host status code " ++ toString c)] ∧
      (HTTPC.doHTTPCall (fun _ => (.wire { status := some ⟨c, m⟩ }, none)) ns req).err
        = some [.errHostResponseInvalid, .msg ("unexpected host status code " ++ toString c)]) ∧
    ((c = 400 ∨ c = 404) →
      (KV.Set (fun _ => (.wire { status := some ⟨c, m⟩ }, none)) ns key [1]).err
        = some [.errHostResponseInvalid]) ∧
    (c = 500 →
      (KV.Set (fun _ => (.wire { status := some ⟨c, m⟩ }, none)) ns key [1]).err
        = some [.errHostError]) ∧
    sentinelShape (SQL.Exec (fun _ => (.wire { status := some ⟨c, m⟩ }, none)) ns query).err
      = sentinelShape (SQL.Exec (fun _ => (.wire { status := some ⟨c, m2⟩ }, none)) ns query).err ∧
    (KV.Set (fun _ => (.wire { status := some ⟨c, m⟩ }, none)) ns key [1]).err
      = (KV.Set (fun _ => (.wire { status := some ⟨c, m2⟩ }, none)) ns key [1]).err ∧
    sentinelShape (HTTPC.doHTTPCall (fun _ => (.wire { status := some ⟨c, m⟩ }, none)) ns req).err
      = sentinelShape (HTTPC.doHTTPCall (fun _ => (.wire { status := some ⟨c, m2⟩ }, none)) ns req).err := by
  refine ⟨?_, ?_, ?_, ?_, ?_, rfl, ?_⟩
  · rintro (rfl | rfl | rfl) <;>
      constructor <;>
      simp [SQL.Exec, SQL.validateStatus, HTTPC.doHTTPCall, decodeP, Payload.isEmptyBytes, hq]
  · intro h
    have h1 : ¬(c = 200 ∨ c = 206) := fun hc => h (by tauto)
    have h2 : ¬(c = 400 ∨ c = 404 ∨ c = 500) := fun hc => h (by tauto)
    constructor
    · simp [SQL.Exec, SQL.validateStatus, decodeP, Payload.isEmptyBytes, hq, h1, h2]
    · simp [HTTPC.doHTTPCall, decodeP, h1, h2]
  · rintro (rfl | rfl) <;>
      simp [KV.Set, statusIs, decodeP, Payload.isEmptyBytes, hkey]
  · rintro rfl
    simp [KV.Set, statusIs, decodeP, Payload.isEmptyBytes, hkey]
  · rw [sqlExec_wire_err c m ns query hq, sqlExec_wire_err c m2 ns query hq]
    exact sentinelShape_validateStatus c m m2
  · exact sentinelShape_httpDispatch c m m2 ns req

/-- C4 witness at concrete inputs. -/
theorem C4_status_error_classification_witness :
    ("k" : String) ≠ "" ∧ ("SELECT 1" : String) ≠ "" ∧
    ((400 : Int) = 400 ∨ (400 : Int) = 404 ∨ (400 : Int) = 500) ∧
    ((SQL.Exec (fun _ => (.wire { status := some ⟨400, "boom"⟩ }, none)) "ns" "SELECT 1").err
        = some [.errHostError,
            .msg (if ("boom" : String) ≠ "" then
                    "host status " ++ toString (400 : Int) ++ ": " ++ "boom"
                  else "host status " ++ toString (400 : Int))] ∧
     (HTTPC.doHTTPCall (fun _ => (.wire { status := some ⟨400, "boom"⟩ }, none)) "ns"
          { method := "GET", url := "http://example.com" }).err
        = some [.errHostError,
            .msg (if ("boom" : String) ≠ "" then
                    "host status " ++ toString (400 : Int) ++ ": " ++ "boom"
                  else "host status " ++ toString (400 : Int))]) :=
  ⟨by decide, by decide, by decide,
    (C4_status_error_classification 400 "boom" "x" "ns" "k" "SELECT 1"
        { method := "GET", url := "http://example.com" } (by decide) (by decide)).1
      (by decide)⟩

/-- C5: for every KV or SQL operation where the host call returns a non-nil
transport error together with a non-empty payload that fails to decode, the
single returned error satisfies both the Transport-Error and Decode-Error
identity checks, with the transport sentinel first in the composition. -/
theorem C5_transport_and_decode_errors_compose
    (ns key query : String) (value : Bytes) (u : DecodeErr) (ce : TransportErr)
    (hkey : key ≠ "") (hval : value ≠ []) (hq : query ≠ "") :
    transportFirstWithDecode ce u
      (KV.Get (fun _ => (.garbage u, some ce)) ns key).err ∧
    transportFirstWithDecode ce u
      (KV.Set (fun _ => (.garbage u, some ce)) ns key value).err ∧
    transportFirstWithDecode ce u
      (KV.Delete (fun _ => (.garbage u, some ce)) ns key).err ∧
    transportFirstWithDecode ce u
      (KV.Keys (fun _ => (.garbage u, some ce)) ns).err ∧
    transportFirstWithDecode ce u
      (SQL.Exec (fun _ => (.garbage u, some ce)) ns query).err ∧
    transportFirstWithDecode ce u
      (SQL.Query (fun _ => (.garbage u, some ce)) ns query).err := by
  have hlen : value.length ≠ 0 := by simpa using hval
  refine ⟨?_, ?_, ?_, ?_, ?_, ?_⟩
  · exact ⟨[.errHostCall, .transport ce, .errHostResponseInvalid, .unmarshal u],
      by simp [KV.Get, decodeP, Payload.isEmptyBytes, hkey], rfl, by simp, by simp⟩
  · exact ⟨[.errHostCall, .transport ce, .errHostResponseInvalid, .unmarshal u],
      by simp [KV.Set, decodeP, Payload.isEmptyBytes, hkey, hlen], rfl, by simp, by simp⟩
  · exact ⟨[.errHostCall, .transport ce, .errHostResponseInvalid, .unmarshal u],
      by simp [KV.Delete, decodeP, Payload.isEmptyBytes, hkey], rfl, by simp, by simp⟩
  · exact ⟨[.errHostCall, .transport ce, .errHostResponseInvalid, .unmarshal u],
      by simp [KV.Keys, decodeP, Payload.isEmptyBytes], rfl, by simp, by simp⟩
  · exact ⟨[.errHostCall, .transport ce, .errHostResponseInvalid, .errSQLUnmarshalResponse, .unmarshal u],
      by simp [SQL.Exec, decodeP, Payload.isEmptyBytes, hq], rfl, by simp, by simp⟩
  · exact ⟨[.errHostCall, .transport ce, .errHostResponseInvalid, .errSQLUnmarshalResponse, .unmarshal u],
      by simp [SQL.Query, decodeP, Payload.isEmptyBytes, hq], rfl, by simp, by simp⟩

/-- C5 witness at concrete inputs. -/
theorem C5_transport_and_decode_errors_compose_witness :
    ("k" : String) ≠ "" ∧ ([1] : Bytes) ≠ [] ∧ ("SELECT 1" : String) ≠ "" ∧
    (transportFirstWithDecode ⟨3⟩ ⟨5⟩
      (KV.Get (fun _ => (.garbage ⟨5⟩, some ⟨3⟩)) "ns" "k").err ∧
    transportFirstWithDecode ⟨3⟩ ⟨5⟩
      (KV.Set (fun _ => (.garbage ⟨5⟩, some ⟨3⟩)) "ns" "k" [1]).err ∧
    transportFirstWithDecode ⟨3⟩ ⟨5⟩
      (KV.Delete (fun _ => (.garbage ⟨5⟩, some ⟨3⟩)) "ns" "k").err ∧
    transportFirstWithDecode ⟨3⟩ ⟨5⟩
      (KV.Keys (fun _ => (.garbage ⟨5⟩, some ⟨3⟩)) "ns").err ∧
    transportFirstWithDecode ⟨3⟩ ⟨5⟩
      (SQL.Exec (fun _ => (.garbage ⟨5⟩, some ⟨3⟩)) "ns" "SELECT 1").err ∧
    transportFirstWithDecode ⟨3⟩ ⟨5⟩
      (SQL.Query (fun _ => (.garbage ⟨5⟩, some ⟨3⟩)) "ns" "SELECT 1").err) :=
  ⟨by decide, by decide, by decide,
    C5_transport_and_decode_errors_compose "ns" "k" "SELECT 1" [1] ⟨5⟩ ⟨3⟩
      (by decide) (by decide) (by decide)⟩

/-- C6: for every capability operation where the host returns an empty payload
and a nil transport error, the decode succeeds into the zero-value envelope
(whose status is absent) and the operation returns exactly the Response-Invalid
error, never a nil error. -/
theorem C6_empty_payload_is_response_invalid
    (ns key query : String) (value : Bytes) (req : HTTPC.HTTPClientReq)
    (hkey : key ≠ "") (hval : value ≠ []) (hq : query ≠ "") :
    decodeP ({} : KV.KVStoreGetResponse) .empty = .ok {} ∧
    ({} : KV.KVStoreGetResponse).status = none ∧
    (KV.Get (fun _ => (.empty, none)) ns key).err = some [.errHostResponseInvalid] ∧
    (KV.Set (fun _ => (.empty, none)) ns key value).err = some [.errHostResponseInvalid] ∧
    (KV.Delete (fun _ => (.empty, none)) ns key).err = some [.errHostResponseInvalid] ∧
    (KV.Keys (fun _ => (.empty, none)) ns).err = some [.errHostResponseInvalid] ∧
    (SQL.Exec (fun _ => (.empty, none)) ns query).err = some [.errHostResponseInvalid] ∧
    (SQL.Query (fun _ => (.empty, none)) ns query).err = some [.errHostResponseInvalid] ∧
    (HTTPC.doHTTPCall (fun _ => (.empty, none)) ns req).err = some [.errHostResponseInvalid] := by
  have hlen : value.length ≠ 0 := by simpa using hval
  refine ⟨rfl, rfl, ?_, ?_, ?_, ?_, ?_, ?_, rfl⟩
  · simp [KV.Get, statusIs, decodeP, Payload.isEmptyBytes, hkey]
  · simp [KV.Set, statusIs, decodeP, Payload.isEmptyBytes, hkey, hlen]
  · simp [KV.Delete, statusIs, decodeP, Payload.isEmptyBytes, hkey]
  · simp [KV.Keys, statusIs, decodeP, Payload.isEmptyBytes]
  · simp [SQL.Exec, SQL.validateStatus, decodeP, Payload.isEmptyBytes, hq]
  · simp [SQL.Query, SQL.validateStatus, decodeP, Payload.isEmptyBytes, hq]

/-- C6 witness at concrete inputs. -/
theorem C6_empty_payload_is_response_invalid_witness :
    ("k" : String) ≠ "" ∧ ([1] : Bytes) ≠ [] ∧ ("SELECT 1" : String) ≠ "" ∧
    (decodeP ({} : KV.KVStoreGetResponse) .empty = .ok {} ∧
    ({} : KV.KVStoreGetResponse).status = none ∧
    (KV.Get (fun _ => (.empty, none)) "ns" "k").err = some [.errHostResponseInvalid] ∧
    (KV.Set (fun _ => (.empty, none)) "ns" "k" [1]).err = some [.errHostResponseInvalid] ∧
    (KV.Delete (fun _ => (.empty, none)) "ns" "k").err = some [.errHostResponseInvalid] ∧
    (KV.Keys (fun _ => (.empty, none)) "ns").err = some [.errHostResponseInvalid] ∧
    (SQL.Exec (fun _ => (.empty, none)) "ns" "SELECT 1").err = some [.errHostResponseInvalid] ∧
    (SQL.Query (fun _ => (.empty, none)) "ns" "SELECT 1").err = some [.errHostResponseInvalid] ∧
    (HTTPC.doHTTPCall (fun _ => (.empty, none)) "ns"
        { method := "GET", url := "http://example.com" }).err
      = some [.errHostResponseInvalid]) :=
  ⟨by decide, by decide, by decide,
    C6_empty_payload_is_response_invalid "ns" "k" "SELECT 1" [1]
      { method := "GET", url := "http://example.com" } (by decide) (by decide) (by decide)⟩

/-- C7: a KV Get whose decoded envelope carries status 404 returns
ErrKeyNotFound (which does not satisfy the Status-Error identity check), and a
KV Delete whose decoded envelope carries status 404 returns a nil error. -/
theorem C7_kv_get404_not_found_delete404_nil
    (ns key m : String) (d : Bytes) (hkey : key ≠ "") :
    KV.Get (fun _ => (.wire { status := some ⟨404, m⟩, data := d }, none)) ns key
      = { val := [], err := some [.errKeyNotFound], calls := 1 } ∧
    Cause.errHostError ∉ [Cause.errKeyNotFound] ∧
    KV.Delete (fun _ => (.wire { status := some ⟨404, m⟩ }, none)) ns key
      = { val := (), err := none, calls := 1 } := by
  refine ⟨?_, by decide, ?_⟩
  · simp [KV.Get, statusIs, decodeP, Payload.isEmptyBytes, hkey]
  · simp [KV.Delete, statusIs, decodeP, Payload.isEmptyBytes, hkey]

/-- C7 witness at concrete inputs. -/
theorem C7_kv_get404_not_found_delete404_nil_witness :
    ("missing" : String) ≠ "" ∧
    (KV.Get (fun _ => (.wire { status := some ⟨404, "not found"⟩, data := [3] }, none))
        "default" "missing"
      = { val := [], err := some [.errKeyNotFound], calls := 1 } ∧
    Cause.errHostError ∉ [Cause.errKeyNotFound] ∧
    KV.Delete (fun _ => (.wire { status := some ⟨404, "not found"⟩ }, none)) "default" "missing"
      = { val := (), err := none, calls := 1 }) :=
  ⟨by decide, C7_kv_get404_not_found_delete404_nil "default" "missing" "not found" [3] (by decide)⟩

/-- C8: HTTP method validation, URL validation and body reading all complete
before any host call: an invalid method is rejected by NewRequest with
ErrInvalidMethod; a URL that fails to parse or has an empty host is rejected
with ErrInvalidURL by Get/Post/Put/Delete/Do; a failing body reader is
rejected with ErrReadBody by Post/Put/Do — and in every failing case the
host-call count is zero. -/
theorem C8_http_validation_precedes_host_call
    (parse : HTTPC.ParseFn) (host : KV.HostFn HTTPC.HTTPClientReq HTTPC.HTTPClientResponse)
    (ns ct urlStr method : String) (insecure : Bool) (re : ReadErr)
    (body : HTTPC.Body) (u : HTTPC.URL) :
    (HTTPC.isValidMethod method = false →
      HTTPC.NewRequest parse method urlStr body = .error [.errHTTPInvalidMethod]) ∧
    (parse urlStr = none →
      HTTPC.Get parse host ns insecure urlStr
        = { val := {}, err := some [.errHTTPInvalidURL], calls := 0 } ∧
      HTTPC.Post parse host ns insecure urlStr ct body
        = { val := {}, err := some [.errHTTPInvalidURL], calls := 0 } ∧
      HTTPC.Put parse host ns insecure urlStr ct body
        = { val := {}, err := some [.errHTTPInvalidURL], calls := 0 } ∧
      HTTPC.Delete parse host ns insecure urlStr
        = { val := {}, err := some [.errHTTPInvalidURL], calls := 0 }) ∧
    (parse urlStr = some u → u.host = "" →
      HTTPC.Get parse host ns insecure urlStr
        = { val := {}, err := some [.errHTTPInvalidURL], calls := 0 } ∧
      HTTPC.Post parse host ns insecure urlStr ct body
        = { val := {}, err := some [.errHTTPInvalidURL], calls := 0 } ∧
      HTTPC.Put parse host ns insecure urlStr ct body
        = { val := {}, err := some [.errHTTPInvalidURL], calls := 0 } ∧
      HTTPC.Delete parse host ns insecure urlStr
        = { val := {}, err := some [.errHTTPInvalidURL], calls := 0 }) ∧
    (parse urlStr = some u → u.host ≠ "" →
      HTTPC.Post parse host ns insecure urlStr ct (some (.error re))
        = { val := {}, err := some [.errHTTPReadBody, .readFail re], calls := 0 } ∧
      HTTPC.Put parse host ns insecure urlStr ct (some (.error re))
        = { val := {}, err := some [.errHTTPReadBody, .readFail re], calls := 0 }) ∧
    (HTTPC.Do host ns insecure (some { method := method, url := none })
      = { val := {}, err := some [.errHTTPInvalidURL], calls := 0 }) ∧
    (u.host = "" →
      HTTPC.Do host ns insecure (some { method := method, url := some u })
        = { val := {}, err := some [.errHTTPInvalidURL], calls := 0 }) ∧
    (u.host ≠ "" →
      HTTPC.Do host ns insecure
          (some { method := method, url := some u, body := some (.error re) })
        = { val := {}, err := some [.errHTTPReadBody, .readFail re], calls := 0 }) := by
  refine ⟨?_, ?_, ?_, ?_, rfl, ?_, ?_⟩
  · intro h
    simp [HTTPC.NewRequest, h]
  · intro h
    refine ⟨?_, ?_, ?_, ?_⟩ <;>
      simp [HTTPC.Get, HTTPC.Post, HTTPC.Put, HTTPC.Delete, h]
  · intro h hh
    refine ⟨?_, ?_, ?_, ?_⟩ <;>
      simp [HTTPC.Get, HTTPC.Post, HTTPC.Put, HTTPC.Delete, h, hh]
  · intro h hh
    constructor <;> simp [HTTPC.Post, HTTPC.Put, h, hh]
  · intro hh
    simp [HTTPC.Do, hh]
  · intro hh
    simp [HTTPC.Do, hh]

/-- C8 witness at concrete inputs. -/
theorem C8_http_validation_precedes_host_call_witness :
    HTTPC.isValidMethod "BREW" = false ∧
    ((fun _ => none : HTTPC.ParseFn) "://bad-url" = none) ∧
    (HTTPC.NewRequest (fun _ => none) "BREW" "://bad-url" none
        = .error [.errHTTPInvalidMethod]) ∧
    (HTTPC.Get (fun _ => none) (fun _ => (.empty, none)) "ns" false "://bad-url"
        = { val := {}, err := some [.errHTTPInvalidURL], calls := 0 } ∧
     HTTPC.Post (fun _ => none) (fun _ => (.empty, none)) "ns" false "://bad-url" "text/plain" none
        = { val := {}, err := some [.errHTTPInvalidURL], calls := 0 } ∧
     HTTPC.Put (fun _ => none) (fun _ => (.empty, none)) "ns" false "://bad-url" "text/plain" none
        = { val := {}, err := some [.errHTTPInvalidURL], calls := 0 } ∧
     HTTPC.Delete (fun _ => none) (fun _ => (.empty, none)) "ns" false "://bad-url"
        = { val := {}, err := some [.errHTTPInvalidURL], calls := 0 }) := by
  have h := C8_http_validation_precedes_host_call (fun _ => none) (fun _ => (.empty, none))
    "ns" "text/plain" "://bad-url" "BREW" false ⟨0⟩ none ⟨"example.com", "http://example.com"⟩
  exact ⟨by decide, rfl, h.1 (by decide), h.2.1 rfl⟩

/-- C9: for a successful HTTP call (host dispatch status 200 or 206), the
returned Response's StatusCode is the envelope's `code` field and its Status
is the standard status-text mapping of that code; the result does not depend
on which of the two dispatch codes the host used, so the host status and the
simulated HTTP status are never merged. -/
theorem C9_http_response_code_independent_of_host_status
    (ns m : String) (hostStat httpCode : Int)
    (hdrs : List (String × List String)) (bdy : Bytes) (req : HTTPC.HTTPClientReq)
    (h : hostStat = 200 ∨ hostStat = 206) :
    HTTPC.doHTTPCall
      (fun _ => (.wire { status := some ⟨hostStat, m⟩, code := httpCode,
                         headers := hdrs, body := bdy }, none)) ns req
      = { val := { status := HTTPC.statusText httpCode, statusCode := httpCode,
                   header := hdrs, body := bdy }, err := none, calls := 1 } := by
  rcases h with rfl | rfl
  · simp [HTTPC.doHTTPCall, decodeP]
  · simp [HTTPC.doHTTPCall, decodeP]

/-- C9 witness at concrete inputs. -/
theorem C9_http_response_code_independent_of_host_status_witness :
    ((206 : Int) = 200 ∨ (206 : Int) = 206) ∧
    HTTPC.doHTTPCall
      (fun _ => (.wire { status := some ⟨206, "ok"⟩, code := 404,
                         headers := [], body := [7] }, none)) "ns"
      { method := "GET", url := "http://example.com" }
      = { val := { status := HTTPC.statusText 404, statusCode := 404,
                   header := [], body := [7] }, err := none, calls := 1 } :=
  ⟨by decide,
    C9_http_response_code_independent_of_host_status "ns" "ok" 206 404 [] [7]
      { method := "GET", url := "http://example.com" } (by decide)⟩

/-- C10: KV Set with a non-empty key and a zero-length value returns
ErrInvalidValue without invoking the host call; the check is on length, so the
empty non-nil slice is rejected exactly like nil. -/
theorem C10_kv_set_empty_value_rejected
    (host : KV.HostFn KV.KVStoreSet KV.KVStoreSetResponse) (ns key : String)
    (hkey : key ≠ "") :
    KV.Set host ns key [] = { val := (), err := some [.errInvalidValue], calls := 0 } := by
  simp [KV.Set, hkey]

/-- C10 witness at concrete inputs. -/
theorem C10_kv_set_empty_value_rejected_witness :
    ("key1" : String) ≠ "" ∧
    KV.Set (fun _ => (.empty, none)) "default" "key1" []
      = { val := (), err := some [.errInvalidValue], calls := 0 } :=
  ⟨by decide, C10_kv_set_empty_value_rejected (fun _ => (.empty, none)) "default" "key1" (by decide)⟩
